import Mathlib

/-!
Verification of the message-consumer core of `cloudflare-queue-consumer`.

The definitions below are a shallow embedding of the TypeScript source
(`src/consumer.ts`, `src/validation.ts`, `src/errors.ts`,
`src/lib/cloudflare.ts`).  JavaScript numbers are embedded as `Int`,
absent (`undefined`) fields as `Option`, synchronous exceptions and
promise rejections as `Except`, and the observable behaviour of one
poll cycle as a list of `Step`s (event emissions and outgoing
acknowledge requests).  Handler invocations and network calls are
suspension points whose settled outcome is passed in as data.
-/

/-- A pulled queue message (`Message` in `types.ts`). -/
structure Message where
  body : String
  id : String
  timestamp_ms : Int
  attempts : Int
  lease_id : String
  metadata_source : String
  metadata_content_type : String
deriving DecidableEq, Repr

/-- The per-category acknowledgment counts returned by the ack endpoint
(`AckMessageResponse.result`). -/
structure AckResult where
  ackCount : Int
  retryCount : Int
  warnings : List String
deriving DecidableEq, Repr

/-- Response of the `messages/ack` endpoint (`AckMessageResponse`). -/
structure AckMessageResponse where
  success : Bool
  result : AckResult
deriving DecidableEq, Repr

/-- Payload of a successful pull (`PullMessagesResponse.result`).  The field is
reached through optional chaining in the source, so the whole record is
optional in `PullMessagesResponse`. -/
structure PullResult where
  messages : List Message
deriving DecidableEq, Repr

/-- Response of the `messages/pull` endpoint (`PullMessagesResponse`). -/
structure PullMessagesResponse where
  success : Bool
  result : Option PullResult
deriving DecidableEq, Repr

/-- Error objects (`errors.ts`): `ProviderError`, `TimeoutError`,
`StandardError`, plus arbitrary other `Error` instances with their `name` and
`message` properties. -/
inductive JSErrObj where
  | providerErr (msg : String)
  | timeoutErr (msg : String)
  | standardErr (msg : String)
  | genericErr (nm : String) (msg : String)
deriving DecidableEq, Repr

/-- The `message` property of an error object. -/
def JSErrObj.msgOf : JSErrObj → String
  | .providerErr m => m
  | .timeoutErr m => m
  | .standardErr m => m
  | .genericErr _ m => m

/-- The `name` property of an error object.  `ProviderError`,
`TimeoutError` and `StandardError` set `name` in their constructors. -/
def JSErrObj.nameOf : JSErrObj → String
  | .providerErr _ => "ProviderError"
  | .timeoutErr _ => "TimeoutError"
  | .standardErr _ => "StandardError"
  | .genericErr n _ => n

/-- Any JavaScript value that can be thrown (`throw err` accepts
non-`Error` values: strings, numbers, `null`, `undefined`). -/
inductive ThrownValue where
  | errObj (e : JSErrObj)
  | strVal (s : String)
  | numVal (n : Int)
  | nullVal
  | undefVal
deriving DecidableEq, Repr

/-- Reading `err.name`.  On `null` and `undefined` the property access itself
throws a `TypeError`; on primitives it evaluates to `undefined` (`none`). -/
def jsNameProp : ThrownValue → Except ThrownValue (Option String)
  | .errObj e => .ok (some e.nameOf)
  | .strVal _ => .ok none
  | .numVal _ => .ok none
  | .nullVal =>
      .error (.errObj (.genericErr "TypeError"
        "Cannot read properties of null (reading name)"))
  | .undefVal =>
      .error (.errObj (.genericErr "TypeError"
        "Cannot read properties of undefined (reading name)"))

/-- Interpolating `${err.message}`.  On `null` and `undefined` the property
access throws a `TypeError`; on primitives it interpolates as `undefined`. -/
def jsMessageProp : ThrownValue → Except ThrownValue String
  | .errObj e => .ok e.msgOf
  | .strVal _ => .ok "undefined"
  | .numVal _ => .ok "undefined"
  | .nullVal =>
      .error (.errObj (.genericErr "TypeError"
        "Cannot read properties of null (reading message)"))
  | .undefVal =>
      .error (.errObj (.genericErr "TypeError"
        "Cannot read properties of undefined (reading message)"))

/-- `err instanceof TimeoutError`. -/
def isTimeoutInstance : ThrownValue → Bool
  | .errObj (.timeoutErr _) => true
  | _ => false

/-- Values a single-message handler can resolve with
(`Promise<Message | void>` at the type level; anything at runtime). -/
inductive JSValue where
  | undef
  | nullv
  | str (s : String)
  | num (n : Int)
  | boolv (b : Bool)
  | msgObj (m : Message)
  | plainObj (idProp : Option String)
  | arr (ms : List Message)
deriving DecidableEq, Repr

/-- `v instanceof Object`: true for objects and arrays, false for primitives,
`null` and `undefined`. -/
def jsIsObject : JSValue → Bool
  | .msgObj _ => true
  | .plainObj _ => true
  | .arr _ => true
  | _ => false

/-- Reading `v?.id` on a handler result. -/
def jsIdProp : JSValue → Option String
  | .msgObj m => some m.id
  | .plainObj i => i
  | _ => none

/-- Reading `v?.length` on a handler result (arrays have `length`; plain
objects do not, so the comparison `undefined > 0` is false). -/
def jsLenProp : JSValue → Option Nat
  | .arr ms => some ms.length
  | .str s => some s.length
  | _ => none

/-- The list of messages held by an array value. -/
def jsAsMsgList : JSValue → List Message
  | .arr ms => ms
  | _ => []

/-- The check `ackedMessages?.length > 0`: false when `length` is
`undefined` (`undefined > 0` is false in JavaScript). -/
def jsLenPositive (v : JSValue) : Bool :=
  match jsLenProp v with
  | some n => 0 < n
  | none => false

/-- Settled outcome of a handler invocation (or of the race against the
handler-timeout timer in `executeHandler`). -/
inductive HandlerOutcome where
  | resolve (v : JSValue)
  | reject (e : ThrownValue)
deriving DecidableEq, Repr

/-- A retry entry sent to the ack endpoint: the message spread together with a
`delay_seconds` field (`acknowledgeMessage`). -/
structure RetryEntry where
  msg : Message
  delay_seconds : Int
deriving DecidableEq, Repr

/-- Events emitted by the consumer (the `Events` interface in `types.ts`,
restricted to the events the processing pipeline emits). -/
inductive Event where
  | started
  | stopped
  | aborted
  | empty
  | response_processed
  | message_received (m : Message)
  | message_processed (m : Message)
  | acknowledging_messages (acks : List Message) (retries : List RetryEntry)
  | acknowledged_messages (r : AckResult)
  | errorNoMsg (e : ThrownValue)
  | errorWithMsg (e : ThrownValue) (m : Message)
  | errorWithBatch (e : ThrownValue) (ms : List Message)
  | timeout_error (e : ThrownValue) (m : Message)
  | processing_error (e : ThrownValue) (m : Message)
  | option_updated (nm : String) (value : Int)
deriving DecidableEq, Repr

/-- One observable step of a poll cycle: an event emission or an outgoing
acknowledge request (`queuesClient` call with path `messages/ack`). -/
inductive Step where
  | emit (e : Event)
  | ackRequest (acks : List Message) (retries : List RetryEntry)
deriving DecidableEq, Repr

/-- Construction-time options (`ConsumerOptions`).  `none` is an absent
field; JavaScript truthiness of provided values matters below. -/
structure ConsumerOptions where
  accountId : Option String := none
  queueId : Option String := none
  handleMessage : Bool := false
  handleMessageBatch : Bool := false
  batchSize : Option Int := none
  visibilityTimeoutMs : Option Int := none
  retryMessagesOnError : Option Bool := none
  pollingWaitTimeMs : Option Int := none
  handleMessageTimeout : Option Int := none
  alwaysAcknowledge : Option Bool := none
  retryMessageDelay : Option Int := none
deriving DecidableEq, Repr

/-- Truthiness of an optional string (`options[p]` check in
`assertOptions`): absent and the empty string are falsy. -/
def strTruthy : Option String → Bool
  | none => false
  | some s => s ≠ ""

/-- Truthiness of an optional number (`if (options.batchSize)` etc.):
absent and `0` are falsy. -/
def numTruthy : Option Int → Bool
  | none => false
  | some n => n ≠ 0

/-- `validateOption` from `validation.ts` (the variant used by the consumer
in `src/unnamed/part_000`, lines 608-631): bound checks for `batchSize`,
`visibilityTimeoutMs` and `retryMessageDelay`; any other name throws in
strict mode and passes silently otherwise. -/
def validateOption (option : String) (value : Int) (strict : Bool) :
    Except String Unit :=
  if option = "batchSize" then
    if value > 100 ∨ value < 1 then
      .error "batchSize must be between 1 and 100"
    else .ok ()
  else if option = "visibilityTimeoutMs" then
    if value > 43200000 then
      .error "visibilityTimeoutMs must be less than 43200000"
    else .ok ()
  else if option = "retryMessageDelay" then
    if value > 42300 then
      .error "retryMessageDelay must be less than 42300"
    else .ok ()
  else if strict then
    .error ("The update " ++ option ++ " cannot be updated")
  else .ok ()

/-- `assertOptions` from `validation.ts` (`src/unnamed/part_000`, lines
637-658): required identifiers and one of the two handlers must be truthy;
the three numeric options are bound-checked only when truthy. -/
def assertOptions (o : ConsumerOptions) : Except String Unit := do
  if ¬ strTruthy o.accountId then
    throw "Missing consumer option [ accountId ]."
  if ¬ strTruthy o.queueId then
    throw "Missing consumer option [ queueId ]."
  if ¬ (o.handleMessage || o.handleMessageBatch) then
    throw "Missing consumer option [ handleMessage or handleMessageBatch ]."
  if numTruthy o.batchSize then
    validateOption "batchSize" (o.batchSize.getD 0) false
  if numTruthy o.visibilityTimeoutMs then
    validateOption "visibilityTimeoutMs" (o.visibilityTimeoutMs.getD 0) false
  if numTruthy o.retryMessageDelay then
    validateOption "retryMessageDelay" (o.retryMessageDelay.getD 0) false

/-- The consumer configuration fields as assigned in the constructor
(`consumer.ts` lines 48-58), with the source defaults. -/
structure ConsumerConfig where
  accountId : String := ""
  queueId : String := ""
  hasBatchHandler : Bool := false
  batchSize : Int := 10
  visibilityTimeoutMs : Int := 1000
  retryMessagesOnError : Bool := false
  pollingWaitTimeMs : Int := 1000
  handleMessageTimeout : Option Int := none
  alwaysAcknowledge : Bool := false
  retryMessageDelay : Int := 10
deriving DecidableEq, Repr

/-- The `Consumer` constructor: `assertOptions` first (throwing on invalid
input), then field assignment with `??` defaults. -/
def createConsumer (o : ConsumerOptions) : Except String ConsumerConfig :=
  match assertOptions o with
  | .error e => .error e
  | .ok () => .ok
    { accountId := o.accountId.getD ""
      queueId := o.queueId.getD ""
      hasBatchHandler := o.handleMessageBatch
      batchSize := o.batchSize.getD 10
      visibilityTimeoutMs := o.visibilityTimeoutMs.getD 1000
      retryMessagesOnError := o.retryMessagesOnError.getD false
      pollingWaitTimeMs := o.pollingWaitTimeMs.getD 1000
      handleMessageTimeout := o.handleMessageTimeout
      alwaysAcknowledge := o.alwaysAcknowledge.getD false
      retryMessageDelay := o.retryMessageDelay.getD 10 }

/-- `this[option] = value` in `updateOption`: assignment to the named field.
Names that reach this point have passed strict validation; other names are
included for faithfulness of the dynamic assignment. -/
def setConfigField (c : ConsumerConfig) (option : String) (value : Int) :
    ConsumerConfig :=
  if option = "batchSize" then { c with batchSize := value }
  else if option = "visibilityTimeoutMs" then
    { c with visibilityTimeoutMs := value }
  else if option = "retryMessageDelay" then
    { c with retryMessageDelay := value }
  else if option = "pollingWaitTimeMs" then
    { c with pollingWaitTimeMs := value }
  else c

/-- `Consumer.updateOption` (`consumer.ts` lines 405-414): strict validation
(raising without mutation on failure), then assignment, then one
`option_updated` emission. -/
def updateOption (c : ConsumerConfig) (option : String) (value : Int) :
    Except String (ConsumerConfig × List Event) :=
  match validateOption option value true with
  | .error e => .error e
  | .ok () => .ok (setConfigField c option value,
      [Event.option_updated option value])

/-- Lifecycle state of a consumer (`stopped`, `isPolling`, the pending
next-poll timer and the abort controller, modelled as a generation counter
plus a signalled flag). -/
structure ConsumerState where
  stopped : Bool := true
  isPolling : Bool := false
  pollingTimeoutId : Option Nat := none
  abortGen : Nat := 0
  abortSignalled : Bool := false
deriving DecidableEq, Repr

/-- `Consumer.start` (`consumer.ts` lines 71-81): no-op while running;
otherwise allocate a fresh abort controller, clear `stopped`, emit
`started` (the first poll cycle is kicked off asynchronously). -/
def consumerStart (s : ConsumerState) : ConsumerState × List Event :=
  if ¬ s.stopped then (s, [])
  else
    ({ s with stopped := false
              abortGen := s.abortGen + 1
              abortSignalled := false },
     [Event.started])

/-- `Consumer.stop` (`consumer.ts` lines 97-118): no-op while stopped;
otherwise set `stopped`, clear any pending poll timer, optionally signal
abort (emitting `aborted`), then emit `stopped`. -/
def consumerStop (s : ConsumerState) (abort : Bool) :
    ConsumerState × List Event :=
  if s.stopped then (s, [])
  else
    let s1 := { s with stopped := true, pollingTimeoutId := none }
    if abort then
      ({ s1 with abortSignalled := true }, [Event.aborted, Event.stopped])
    else (s1, [Event.stopped])

/-- Interpolating `${this.handleMessageTimeout}` into the timeout message. -/
def jsOptIntInterp : Option Int → String
  | some n => toString n
  | none => "undefined"

/-- `Consumer.executeHandler` (`consumer.ts` lines 296-334), as a function of
the settled outcome of the race between the handler and the optional timeout
timer.  On resolution the returned acknowledgment candidate is
`!alwaysAcknowledge && result instanceof Object ? result : message`; on
rejection, `TimeoutError`s are re-wrapped by `toTimeoutError`, other `Error`s
by `toStandardError`, and non-`Error` thrown values are rethrown as they are. -/
def executeHandler (alwaysAcknowledge : Bool)
    (handleMessageTimeout : Option Int) (m : Message)
    (outcome : HandlerOutcome) : Except ThrownValue JSValue :=
  match outcome with
  | .resolve v =>
      .ok (if ¬ alwaysAcknowledge ∧ jsIsObject v then v else .msgObj m)
  | .reject e =>
      if isTimeoutInstance e then
        .error (.errObj (.timeoutErr ("Message handler timed out after " ++
          jsOptIntInterp handleMessageTimeout ++ "ms: Operation timed out.")))
      else
        match e with
        | .errObj je =>
            .error (.errObj (.standardErr
              ("Unexpected message handler failure: " ++ je.msgOf)))
        | other => .error other

/-- `Consumer.executeBatchHandler` (`consumer.ts` lines 340-356).  No timeout
race exists on this path; the acknowledgment candidate is
`!alwaysAcknowledge && result instanceof Object ? result : messages`, and in
the catch every `Error` (timeout errors included) becomes a `StandardError`. -/
def executeBatchHandler (alwaysAcknowledge : Bool) (messages : List Message)
    (outcome : HandlerOutcome) : Except ThrownValue JSValue :=
  match outcome with
  | .resolve v =>
      .ok (if ¬ alwaysAcknowledge ∧ jsIsObject v then v else .arr messages)
  | .reject e =>
      match e with
      | .errObj je =>
          .error (.errObj (.standardErr
            ("Unexpected message handler failure: " ++ je.msgOf)))
      | other => .error other

/-- `Consumer.acknowledgeMessage` (`consumer.ts` lines 363-398): map the
retries to entries carrying `delay_seconds`, emit `acknowledging_messages`,
send the one ack request, then either emit `acknowledged_messages` (provider
success) or catch the failure (rejection, or the locally thrown error when
the provider reports `success: false`) and emit `error` with a
`ProviderError` wrap, resolving with `undefined` (`.ok none`).  The function
itself rejects only if the catch block's `err.message` read throws. -/
def acknowledgeMessage (retryMessageDelay : Int) (acks retries : List Message)
    (net : Except ThrownValue AckMessageResponse) :
    List Step × Except ThrownValue (Option AckMessageResponse) :=
  let rwd := retries.map (fun m => RetryEntry.mk m retryMessageDelay)
  let pre : List Step :=
    [.emit (.acknowledging_messages acks rwd), .ackRequest acks rwd]
  match net with
  | .ok r =>
    if r.success then
      (pre ++ [.emit (.acknowledged_messages r.result)], .ok (some r))
    else
      (pre ++ [.emit (.errorNoMsg (.errObj (.providerErr
        ("Error acknowledging messages: " ++
          "Message Acknowledgement did not succeed."))))], .ok none)
  | .error e =>
    match jsMessageProp e with
    | .ok msg =>
      (pre ++ [.emit (.errorNoMsg (.errObj (.providerErr
        ("Error acknowledging messages: " ++ msg))))], .ok none)
    | .error te => (pre, .error te)

/-- `Consumer.emitError` (`consumer.ts` lines 421-431): without message
context a generic `error`; otherwise classify by `err.name` against
`ProviderError.name`, then `err instanceof TimeoutError`, then
`processing_error`.  The `err.name` read itself throws on `null` and
`undefined` thrown values. -/
def emitError (err : ThrownValue) (message : Option Message) :
    Except ThrownValue Event :=
  match message with
  | none => .ok (.errorNoMsg err)
  | some m =>
    match jsNameProp err with
    | .error te => .error te
    | .ok nm =>
      if nm = some "ProviderError" then .ok (.errorWithMsg err m)
      else if isTimeoutInstance err then .ok (.timeout_error err m)
      else .ok (.processing_error err m)

/-- `Consumer.processMessage` (`consumer.ts` lines 234-259): emit
`message_received`, run the handler, and if the acknowledgment candidate's
`id` equals the message's `id`, acknowledge this single message and emit
`message_processed`; on any throw, classify it through `emitError` and, when
`retryMessagesOnError` is set, acknowledge the message as a retry. -/
def processMessage (cfg : ConsumerConfig) (m : Message)
    (outcome : HandlerOutcome)
    (netAck netRetry : Except ThrownValue AckMessageResponse) :
    List Step × Except ThrownValue Unit :=
  let recv : List Step := [.emit (.message_received m)]
  let tryRes : List Step × Option ThrownValue :=
    match executeHandler cfg.alwaysAcknowledge cfg.handleMessageTimeout m
        outcome with
    | .error e => (recv, some e)
    | .ok acked =>
      if jsIdProp acked = some m.id then
        match acknowledgeMessage cfg.retryMessageDelay [m] [] netAck with
        | (s, .error te) => (recv ++ s, some te)
        | (s, .ok _) => (recv ++ s ++ [.emit (.message_processed m)], none)
      else (recv, none)
  match tryRes with
  | (steps, none) => (steps, .ok ())
  | (steps, some e) =>
    match emitError e (some m) with
    | .error te => (steps, .error te)
    | .ok ev =>
      if cfg.retryMessagesOnError then
        match acknowledgeMessage cfg.retryMessageDelay [] [m] netRetry with
        | (s2, .error te) => (steps ++ [.emit ev] ++ s2, .error te)
        | (s2, .ok _) => (steps ++ [.emit ev] ++ s2, .ok ())
      else (steps ++ [.emit ev], .ok ())

/-- `Consumer.processMessageBatch` (`consumer.ts` lines 265-290): emit
`message_received` for every message up front, run the batch handler once,
and if the candidate's `length` is positive, acknowledge exactly those
messages and emit `message_processed` for each; on a throw, emit `error`
with the whole batch and, when `retryMessagesOnError` is set, acknowledge
the entire batch as retries. -/
def processMessageBatch (cfg : ConsumerConfig) (messages : List Message)
    (outcome : HandlerOutcome)
    (netAck netRetry : Except ThrownValue AckMessageResponse) :
    List Step × Except ThrownValue Unit :=
  let recv : List Step := messages.map (fun m => .emit (.message_received m))
  let tryRes : List Step × Option ThrownValue :=
    match executeBatchHandler cfg.alwaysAcknowledge messages outcome with
    | .error e => (recv, some e)
    | .ok av =>
      if jsLenPositive av then
        let acked := jsAsMsgList av
        match acknowledgeMessage cfg.retryMessageDelay acked [] netAck with
        | (s, .error te) => (recv ++ s, some te)
        | (s, .ok _) =>
          (recv ++ s ++ acked.map (fun m => .emit (.message_processed m)),
            none)
      else (recv, none)
  match tryRes with
  | (steps, none) => (steps, .ok ())
  | (steps, some e) =>
    let steps := steps ++ [.emit (.errorWithBatch e messages)]
    if cfg.retryMessagesOnError then
      match acknowledgeMessage cfg.retryMessageDelay [] messages netRetry with
      | (s2, .error te) => (steps ++ s2, .error te)
      | (s2, .ok _) => (steps ++ s2, .ok ())
    else (steps, .ok ())

/-- The settled outcomes of one cycle's suspension points: each message's
handler invocation and acknowledge network call (per-message path), and the
batch handler's invocation and its acknowledge calls (batch path). -/
structure MsgEnv where
  outcome : Message → HandlerOutcome
  netAck : Message → Except ThrownValue AckMessageResponse
  netRetry : Message → Except ThrownValue AckMessageResponse
  batchOutcome : HandlerOutcome
  batchNetAck : Except ThrownValue AckMessageResponse
  batchNetRetry : Except ThrownValue AckMessageResponse

/-- `Promise.all(messages.map(processMessage))` in `handleQueueResponse`.
The branches are started concurrently; event counts and each branch's own
subsequence are interleaving-independent, so steps are listed in array
order, and a rejection (first in array order) rejects the join while the
other branches still run to completion. -/
def processAll (cfg : ConsumerConfig) (env : MsgEnv) :
    List Message → List Step × Except ThrownValue Unit
  | [] => ([], .ok ())
  | m :: rest =>
    let (s, r) := processMessage cfg m (env.outcome m) (env.netAck m)
      (env.netRetry m)
    let (s2, r2) := processAll cfg env rest
    (s ++ s2, match r with | .error e => .error e | .ok () => r2)

/-- `hasMessages` from `validation.ts`:
`response?.result?.messages && response.result.messages.length > 0`. -/
def hasMessages (r : PullMessagesResponse) : Bool :=
  match r.result with
  | some res => 0 < res.messages.length
  | none => false

/-- `Consumer.handleQueueResponse` (`consumer.ts` lines 203-227): a
provider-reported failure emits `error` and ends the cycle; messages are
routed to the batch path when a batch handler is configured, else fanned out
per message, followed by one `response_processed`; an empty pull emits
`empty`. -/
def handleQueueResponse (cfg : ConsumerConfig) (env : MsgEnv)
    (r : PullMessagesResponse) : List Step × Except ThrownValue Unit :=
  if ¬ r.success then
    ([.emit (.errorNoMsg (.errObj
      (.genericErr "Error" "Failed to pull messages")))], .ok ())
  else if hasMessages r then
    let msgs := (r.result.getD ⟨[]⟩).messages
    let res := if cfg.hasBatchHandler then
        processMessageBatch cfg msgs env.batchOutcome env.batchNetAck
          env.batchNetRetry
      else processAll cfg env msgs
    match res with
    | (s, .ok ()) => (s ++ [.emit .response_processed], .ok ())
    | (s, .error e) => (s, .error e)
  else ([.emit .empty], .ok ())

/-- Calling the `async function queuesClient` (`lib/cloudflare.ts`): an async
function call never throws synchronously — every failure, including the
missing-credentials throw inside its body, surfaces as a rejection of the
returned promise.  The outer `Except` is synchronous evaluation, the inner
one the promise's settlement. -/
def queuesClientCall (settle : Except ThrownValue PullMessagesResponse) :
    Except ThrownValue (Except ThrownValue PullMessagesResponse) :=
  .ok settle

/-- `Consumer.receiveMessage` (`consumer.ts` lines 178-196): the body stores
the client's promise without awaiting it and returns it; the catch block
therefore applies only to a synchronous throw of the call expression and
would wrap it as `ProviderError` with message `Receive message failed: ...`. -/
def receiveMessage
    (clientCall : Except ThrownValue (Except ThrownValue PullMessagesResponse)) :
    Except ThrownValue PullMessagesResponse :=
  match clientCall with
  | .ok p => p
  | .error e =>
    match jsMessageProp e with
    | .ok msg =>
      .error (.errObj (.providerErr ("Receive message failed: " ++ msg)))
    | .error te => .error te

/-- The observable steps of one poll cycle (`Consumer.poll`, `consumer.ts`
lines 137-172): `receiveMessage` then `handleQueueResponse`; any rejection of
that chain reaches the `.catch` and is emitted as `error` (after which the
next cycle is scheduled — timers are not part of the step trace). -/
def pollCycle (cfg : ConsumerConfig) (env : MsgEnv)
    (clientSettle : Except ThrownValue PullMessagesResponse) : List Step :=
  match receiveMessage (queuesClientCall clientSettle) with
  | .error e => [.emit (.errorNoMsg e)]
  | .ok resp =>
    match handleQueueResponse cfg env resp with
    | (s, .ok ()) => s
    | (s, .error e) => s ++ [.emit (.errorNoMsg e)]

/-- Does a step emit `message_processed`? -/
def isProcessedStep : Step → Bool
  | .emit (.message_processed _) => true
  | _ => false

/-- Does a step emit `message_received`? -/
def isReceivedStep : Step → Bool
  | .emit (.message_received _) => true
  | _ => false

/-- Does a step emit `response_processed`? -/
def isRespProcessedStep : Step → Bool
  | .emit .response_processed => true
  | _ => false

/-- Is a step an outgoing acknowledge request? -/
def isAckRequestStep : Step → Bool
  | .ackRequest _ _ => true
  | _ => false

/-- Does a step emit an `error` event (any of its three argument shapes)? -/
def isErrorEventStep : Step → Bool
  | .emit (.errorNoMsg _) => true
  | .emit (.errorWithMsg _ _) => true
  | .emit (.errorWithBatch _ _) => true
  | _ => false

/-- The ack/retry payloads of the acknowledge requests of a trace, in order. -/
def ackRequestsOf (steps : List Step) : List (List Message × List RetryEntry) :=
  steps.filterMap fun s => match s with
    | .ackRequest a r => some (a, r)
    | _ => none

/-- A network settlement on which the `catch` of `acknowledgeMessage` cannot
itself throw while reading `err.message` (every rejection value except
thrown `null`/`undefined`). -/
def netWellFormed : Except ThrownValue AckMessageResponse → Bool
  | .ok _ => true
  | .error e => (jsMessageProp e).isOk

/-! ### Fixtures shared by the concrete instances below
(taken from the repository's test fixtures). -/

/-- The pulled message used by the repository's tests. -/
def msgA : Message :=
  { body := "body", id := "123", timestamp_ms := 1234567890, attempts := 1,
    lease_id := "lease-id", metadata_source := "test",
    metadata_content_type := "text" }

/-- A second distinct message. -/
def msgB : Message :=
  { body := "body2", id := "456", timestamp_ms := 1234567891, attempts := 1,
    lease_id := "lease-id-2", metadata_source := "test",
    metadata_content_type := "text" }

/-- A successful acknowledge response. -/
def ackOkResp : AckMessageResponse :=
  { success := true, result := { ackCount := 1, retryCount := 0, warnings := [] } }

/-- A consumer configuration with all source defaults. -/
def defaultConfig : ConsumerConfig := {}

/-- Characterization of construction-time validation, assuming the required
identifiers and a handler are present: it succeeds exactly when every
truthy-provided numeric option among `batchSize`, `visibilityTimeoutMs` and
`retryMessageDelay` is within its bound. -/
theorem assertOptions_ok_iff (o : ConsumerOptions)
    (ha : strTruthy o.accountId = true) (hq : strTruthy o.queueId = true)
    (hh : (o.handleMessage || o.handleMessageBatch) = true) :
    (assertOptions o).isOk = true ↔
      ((numTruthy o.batchSize = true →
          1 ≤ o.batchSize.getD 0 ∧ o.batchSize.getD 0 ≤ 100) ∧
       (numTruthy o.visibilityTimeoutMs = true →
          o.visibilityTimeoutMs.getD 0 ≤ 43200000) ∧
       (numTruthy o.retryMessageDelay = true →
          o.retryMessageDelay.getD 0 ≤ 42300)) := by
  unfold assertOptions validateOption
  rcases hb : numTruthy o.batchSize <;>
    rcases hv : numTruthy o.visibilityTimeoutMs <;>
      rcases hr : numTruthy o.retryMessageDelay <;>
        simp [ha, hq, hh, hb, hv, hr, Bind.bind, Except.bind, pure,
          Except.pure, Except.isOk, Except.toBool] <;>
          split_ifs <;> simp_all <;> omega

/-- C6: construction raises exactly on out-of-bounds numeric options.  As
stated the claim fails: `assertOptions` never checks `pollingWaitTimeMs`,
and a zero `batchSize` is falsy so its bound check is skipped — this
configuration has `batchSize = 0` (outside `[1,100]`) and a negative
polling interval, yet construction succeeds. -/
theorem c6_counterexample :
    createConsumer
      { accountId := some "123"
        queueId := some "123"
        handleMessage := true
        batchSize := some 0
        pollingWaitTimeMs := some (-1) } =
    .ok
      { accountId := "123"
        queueId := "123"
        batchSize := 0
        pollingWaitTimeMs := -1 } := by
  rfl

/-- C6 (amended): for options carrying the required identifiers and a
handler, construction succeeds if and only if every truthy-provided numeric
option among batch size, visibility timeout and retry delay is within its
bound (batch size in `[1,100]`, visibility timeout at most `43200000`,
retry delay at most `42300`, boundary values accepted); the polling
interval is never validated at construction, and a zero value skips its
bound check. -/
theorem c6_amended (o : ConsumerOptions)
    (ha : strTruthy o.accountId = true) (hq : strTruthy o.queueId = true)
    (hh : (o.handleMessage || o.handleMessageBatch) = true) :
    (createConsumer o).isOk = true ↔
      ((numTruthy o.batchSize = true →
          1 ≤ o.batchSize.getD 0 ∧ o.batchSize.getD 0 ≤ 100) ∧
       (numTruthy o.visibilityTimeoutMs = true →
          o.visibilityTimeoutMs.getD 0 ≤ 43200000) ∧
       (numTruthy o.retryMessageDelay = true →
          o.retryMessageDelay.getD 0 ≤ 42300)) := by
  have h : (createConsumer o).isOk = (assertOptions o).isOk := by
    unfold createConsumer
    cases hA : assertOptions o <;> simp [Except.isOk, Except.toBool]
  rw [h]
  exact assertOptions_ok_iff o ha hq hh

/-- C6 witness: a boundary configuration (batch size 100, visibility
timeout 43200000, retry delay 42300) constructs successfully. -/
theorem c6_amended_witness :
    strTruthy (some "acc") = true ∧
    ((createConsumer
      { accountId := some "acc"
        queueId := some "q"
        handleMessage := true
        batchSize := some 100
        visibilityTimeoutMs := some 43200000
        retryMessageDelay := some 42300 }).isOk = true ↔
      ((numTruthy (some (100 : Int)) = true → 1 ≤ (100 : Int) ∧ (100 : Int) ≤ 100) ∧
       (numTruthy (some (43200000 : Int)) = true → (43200000 : Int) ≤ 43200000) ∧
       (numTruthy (some (42300 : Int)) = true → (42300 : Int) ≤ 42300))) :=
  ⟨rfl, c6_amended _ rfl rfl rfl⟩

/-- C3: the claim says the four runtime-mutable fields (visibility timeout,
batch size, polling interval, retry delay) all update successfully.  The
`validateOption` under verification has no `pollingWaitTimeMs` case, so a
strict update of the polling interval falls into the default branch and
raises — contradicting the repository's own tests (which expect
`updateOption("pollingWaitTimeMs", 45)` to succeed and emit
`option_updated`) and the `UpdatableOptions` type. -/
theorem c3_code_bug :
    updateOption defaultConfig "pollingWaitTimeMs" 45 =
      .error "The update pollingWaitTimeMs cannot be updated" := by
  rfl

/-- C8: `start()` while running is a no-op emitting nothing, a
stopped-to-running transition emits exactly one `started` even when `start`
is called twice, and `stop()` while stopped is a no-op emitting nothing. -/
theorem c8_lifecycle :
    (∀ s : ConsumerState, s.stopped = false → consumerStart s = (s, [])) ∧
    (∀ s : ConsumerState, s.stopped = true →
      List.count Event.started
        ((consumerStart s).2 ++ (consumerStart (consumerStart s).1).2) = 1) ∧
    (∀ (s : ConsumerState) (ab : Bool), s.stopped = true →
      consumerStop s ab = (s, [])) := by
  refine ⟨?_, ?_, ?_⟩
  · intro s h
    simp [consumerStart, h]
  · intro s h
    simp [consumerStart, h, List.count_cons]
  · intro s ab h
    simp [consumerStop, h]

/-- C8 witness: the no-op laws at concrete states. -/
theorem c8_lifecycle_witness :
    consumerStart { stopped := false } = ({ stopped := false }, []) ∧
    consumerStop {} true = ({}, []) :=
  ⟨c8_lifecycle.1 _ rfl, c8_lifecycle.2.2 _ true rfl⟩

/-- On any settlement whose failure value admits a `message` read,
`acknowledgeMessage` emits `acknowledging_messages`, sends the one request,
emits one further event that is never `message_processed`, and resolves
normally. -/
theorem ackMessage_wf (d : Int) (a rt : List Message)
    (net : Except ThrownValue AckMessageResponse)
    (hn : netWellFormed net = true) :
    ∃ (ev : Event) (ret : Option AckMessageResponse),
      acknowledgeMessage d a rt net =
        ([.emit (.acknowledging_messages a (rt.map fun mm => ⟨mm, d⟩)),
          .ackRequest a (rt.map fun mm => ⟨mm, d⟩), .emit ev], .ok ret) ∧
      (∀ m', ev ≠ .message_processed m') := by
  cases net with
  | ok r =>
    by_cases hs : r.success = true
    · exact ⟨.acknowledged_messages r.result, some r,
        by simp [acknowledgeMessage, hs], by intro m' h; cases h⟩
    · refine ⟨.errorNoMsg (.errObj (.providerErr
        ("Error acknowledging messages: " ++
          "Message Acknowledgement did not succeed."))), none,
        by simp [acknowledgeMessage, hs], by intro m' h; cases h⟩
  | error e =>
    cases he : jsMessageProp e with
    | ok msg =>
      exact ⟨.errorNoMsg (.errObj (.providerErr
        ("Error acknowledging messages: " ++ msg))), none,
        by simp [acknowledgeMessage, he], by intro m' h; cases h⟩
    | error te =>
      exfalso
      simp [netWellFormed, he, Except.isOk, Except.toBool] at hn

/-- Shape of `processMessage` for a resolving handler: the acknowledgment
(and `message_processed`) happens exactly when `alwaysAcknowledge` is set,
or the resolved value is not an object, or it is an object whose `id`
equals the message's `id`; otherwise only `message_received` is emitted. -/
theorem processMessage_resolve (cfg : ConsumerConfig) (m : Message)
    (v : JSValue) (netAck netRetry : Except ThrownValue AckMessageResponse)
    (hn : netWellFormed netAck = true) :
    ∃ ev : Event, (∀ m', ev ≠ .message_processed m') ∧
      processMessage cfg m (.resolve v) netAck netRetry =
        (if cfg.alwaysAcknowledge = true ∨ jsIsObject v = false ∨
            jsIdProp v = some m.id then
          ([.emit (.message_received m),
            .emit (.acknowledging_messages [m] []), .ackRequest [m] [],
            .emit ev, .emit (.message_processed m)], .ok ())
        else ([.emit (.message_received m)], .ok ())) := by
  obtain ⟨ev, ret, heq, hne⟩ := ackMessage_wf cfg.retryMessageDelay [m] [] netAck hn
  refine ⟨ev, hne, ?_⟩
  by_cases haa : cfg.alwaysAcknowledge = true
  · simp [processMessage, executeHandler, haa, jsIdProp, heq]
  · by_cases hobj : jsIsObject v = true
    · by_cases hid : jsIdProp v = some m.id
      · simp [processMessage, executeHandler, haa, hobj, hid, heq]
      · simp [processMessage, executeHandler, haa, hobj, hid]
    · simp [processMessage, executeHandler, haa, hobj, jsIdProp, heq,
        eq_false_of_ne_true hobj]

/-- C2: the claim ties acknowledgment to "a non-empty result object (or
`alwaysAcknowledge`)".  As stated it fails: with `alwaysAcknowledge` unset
and the handler resolving `undefined` (not an object at all, hence not a
non-empty result object), `executeHandler` falls back to returning the
message itself, whose `id` trivially matches — so the message IS
acknowledged and `message_processed` IS emitted. -/
theorem c2_counterexample :
    defaultConfig.alwaysAcknowledge = false ∧
    jsIsObject .undef = false ∧
    Step.emit (.message_processed msgA) ∈
      (processMessage defaultConfig msgA (.resolve .undef) (.ok ackOkResp)
        (.ok ackOkResp)).1 ∧
    Step.ackRequest [msgA] [] ∈
      (processMessage defaultConfig msgA (.resolve .undef) (.ok ackOkResp)
        (.ok ackOkResp)).1 := by
  refine ⟨rfl, rfl, ?_, ?_⟩ <;> decide

/-- C2 (amended): for a handler invocation that resolves without error, the
message is acknowledged as successful and `message_processed` is emitted if
and only if `alwaysAcknowledge` is set, or the resolved value is not an
object (e.g. `undefined`/`null`/a primitive), or it is an object whose `id`
equals the message's `id`; a resolved object with a different or absent
`id` (such as an empty object) leaves the message unacknowledged. -/
theorem c2_amended (cfg : ConsumerConfig) (m : Message) (v : JSValue)
    (netAck netRetry : Except ThrownValue AckMessageResponse)
    (hn : netWellFormed netAck = true) :
    (processMessage cfg m (.resolve v) netAck netRetry).2 = .ok () ∧
    ((Step.emit (.message_processed m) ∈
        (processMessage cfg m (.resolve v) netAck netRetry).1) ↔
      (cfg.alwaysAcknowledge = true ∨ jsIsObject v = false ∨
        jsIdProp v = some m.id)) ∧
    ((Step.ackRequest [m] [] ∈
        (processMessage cfg m (.resolve v) netAck netRetry).1) ↔
      (cfg.alwaysAcknowledge = true ∨ jsIsObject v = false ∨
        jsIdProp v = some m.id)) := by
  obtain ⟨ev, hne, heq⟩ := processMessage_resolve cfg m v netAck netRetry hn
  by_cases hc : cfg.alwaysAcknowledge = true ∨ jsIsObject v = false ∨
      jsIdProp v = some m.id
  · rw [heq, if_pos hc]
    simp [hc]
  · rw [heq, if_neg hc]
    simp [hc]

/-- C2 witness: a handler resolving with the message itself (an object with
a matching `id`) is acknowledged and `message_processed` fires. -/
theorem c2_amended_witness :
    netWellFormed (.ok ackOkResp) = true ∧
    ((processMessage defaultConfig msgA (.resolve (.msgObj msgA))
        (.ok ackOkResp) (.ok ackOkResp)).2 = .ok () ∧
      ((Step.emit (.message_processed msgA) ∈
          (processMessage defaultConfig msgA (.resolve (.msgObj msgA))
            (.ok ackOkResp) (.ok ackOkResp)).1) ↔
        (defaultConfig.alwaysAcknowledge = true ∨
          jsIsObject (.msgObj msgA) = false ∨
          jsIdProp (.msgObj msgA) = some msgA.id)) ∧
      ((Step.ackRequest [msgA] [] ∈
          (processMessage defaultConfig msgA (.resolve (.msgObj msgA))
            (.ok ackOkResp) (.ok ackOkResp)).1) ↔
        (defaultConfig.alwaysAcknowledge = true ∨
          jsIsObject (.msgObj msgA) = false ∨
          jsIdProp (.msgObj msgA) = some msgA.id))) :=
  ⟨rfl, c2_amended defaultConfig msgA (.msgObj msgA) (.ok ackOkResp)
    (.ok ackOkResp) rfl⟩

/-- C9: when the acknowledge call for a successfully handled message fails
(a rejected request or a provider `success: false`), the failure is emitted
as exactly one `error` event, `acknowledgeMessage` resolves normally with
`undefined` instead of throwing, and `message_processed` is still emitted
for the message. -/
theorem c9_ack_failure (cfg : ConsumerConfig) (m : Message)
    (net netRetry : Except ThrownValue AckMessageResponse)
    (hfail : (∃ je : JSErrObj, net = .error (.errObj je)) ∨
             (∃ r : AckMessageResponse, net = .ok r ∧ r.success = false)) :
    (acknowledgeMessage cfg.retryMessageDelay [m] [] net).2 = .ok none ∧
    (processMessage cfg m (.resolve (.msgObj m)) net netRetry).2 = .ok () ∧
    List.countP isErrorEventStep
      (processMessage cfg m (.resolve (.msgObj m)) net netRetry).1 = 1 ∧
    Step.emit (.message_processed m) ∈
      (processMessage cfg m (.resolve (.msgObj m)) net netRetry).1 := by
  rcases hfail with ⟨je, rfl⟩ | ⟨r, rfl, hs⟩
  · refine ⟨by simp [acknowledgeMessage, jsMessageProp], ?_, ?_, ?_⟩ <;>
      simp [processMessage, executeHandler, acknowledgeMessage, jsIdProp,
        jsMessageProp, isErrorEventStep, List.countP_cons]
  · refine ⟨by simp [acknowledgeMessage, hs], ?_, ?_, ?_⟩ <;>
      simp [processMessage, executeHandler, acknowledgeMessage, jsIdProp, hs,
        isErrorEventStep, List.countP_cons]

/-- C9 witness: a provider that reports `success: false` on the ack call. -/
theorem c9_ack_failure_witness :
    ((∃ je : JSErrObj,
        (.ok { ackOkResp with success := false } :
          Except ThrownValue AckMessageResponse) = .error (.errObj je)) ∨
      (∃ r : AckMessageResponse,
        (.ok { ackOkResp with success := false } :
          Except ThrownValue AckMessageResponse) = .ok r ∧
          r.success = false)) ∧
    Step.emit (.message_processed msgA) ∈
      (processMessage defaultConfig msgA (.resolve (.msgObj msgA))
        (.ok { ackOkResp with success := false }) (.ok ackOkResp)).1 :=
  ⟨Or.inr ⟨_, rfl, rfl⟩,
    (c9_ack_failure defaultConfig msgA (.ok { ackOkResp with success := false })
      (.ok ackOkResp) (Or.inr ⟨_, rfl, rfl⟩)).2.2.2⟩

/-- A cycle environment where every handler invocation resolves with its own
message and every network call settles with the same response. -/
def selfEnv (r : AckMessageResponse) : MsgEnv :=
  { outcome := fun m => .resolve (.msgObj m)
    netAck := fun _ => .ok r
    netRetry := fun _ => .ok r
    batchOutcome := .resolve .undef
    batchNetAck := .ok r
    batchNetRetry := .ok r }

/-- Per-message trace in the fan-out: for each message, one
`message_received`, one acknowledge call with a singleton ack set and empty
retry set, and one `message_processed`. -/
theorem processAll_self (cfg : ConsumerConfig) (r : AckMessageResponse)
    (hr : r.success = true) (msgs : List Message) :
    (processAll cfg (selfEnv r) msgs).2 = .ok () ∧
    List.countP isProcessedStep (processAll cfg (selfEnv r) msgs).1 =
      msgs.length ∧
    ackRequestsOf (processAll cfg (selfEnv r) msgs).1 =
      msgs.map (fun m => ([m], ([] : List RetryEntry))) ∧
    List.countP isRespProcessedStep (processAll cfg (selfEnv r) msgs).1 = 0 := by
  induction msgs with
  | nil => simp [processAll, ackRequestsOf]
  | cons m rest ih =>
    obtain ⟨ih1, ih2, ih3, ih4⟩ := ih
    have hm : processMessage cfg m (.resolve (.msgObj m)) (.ok r) (.ok r) =
        ([.emit (.message_received m),
          .emit (.acknowledging_messages [m] []), .ackRequest [m] [],
          .emit (.acknowledged_messages r.result),
          .emit (.message_processed m)], .ok ()) := by
      simp [processMessage, executeHandler, acknowledgeMessage, hr, jsIdProp]
    rcases hp : processAll cfg (selfEnv r) rest with ⟨restSteps, restRes⟩
    rw [hp] at ih1 ih2 ih3 ih4
    have hres : restRes = Except.ok () := ih1
    subst hres
    simp only [processAll,
      show (selfEnv r).outcome m = HandlerOutcome.resolve (JSValue.msgObj m)
        from rfl,
      show (selfEnv r).netAck m = Except.ok r from rfl,
      show (selfEnv r).netRetry m = Except.ok r from rfl, hm, hp]
    refine ⟨trivial, ?_, ?_, ?_⟩
    · simp only [List.countP_append, List.countP_cons, isProcessedStep] at ih2 ⊢
      simp [ih2]
      omega
    · simp only [ackRequestsOf, List.filterMap_append, List.filterMap_cons,
        List.filterMap_nil] at ih3 ⊢
      simp [ih3]
    · simp only [List.countP_append, List.countP_cons, isRespProcessedStep]
        at ih4 ⊢
      simp [ih4]

/-- C1: the claim says the cycle's acknowledgments go out as ONE acknowledge
call whose ack set has size K.  As stated it fails for K = 2: the per-message
path acknowledges each message in its own call (see the source TODO about
batching), so the cycle issues two singleton acknowledge calls and no call
with an ack set of size 2, even though exactly K `message_processed` events
fire. -/
theorem c1_counterexample :
    List.countP isProcessedStep
      (handleQueueResponse defaultConfig (selfEnv ackOkResp)
        { success := true, result := some ⟨[msgA, msgB]⟩ }).1 = 2 ∧
    ackRequestsOf
      (handleQueueResponse defaultConfig (selfEnv ackOkResp)
        { success := true, result := some ⟨[msgA, msgB]⟩ }).1 =
      [([msgA], []), ([msgB], [])] ∧
    (ackRequestsOf
      (handleQueueResponse defaultConfig (selfEnv ackOkResp)
        { success := true, result := some ⟨[msgA, msgB]⟩ }).1).length ≠ 1 := by
  refine ⟨?_, ?_, ?_⟩ <;> decide

/-- C1 (amended): if a pull succeeds with K ≥ 1 messages, a single-message
handler is configured (no batch handler), and the handler resolves with its
message for every message, then exactly K `message_processed` events fire
and the cycle makes K acknowledge calls, each with a singleton ack set and
an empty retry set, followed by one `response_processed`. -/
theorem c1_amended (cfg : ConsumerConfig) (r : AckMessageResponse)
    (msgs : List Message) (hb : cfg.hasBatchHandler = false)
    (hm : msgs ≠ []) (hr : r.success = true) :
    (handleQueueResponse cfg (selfEnv r)
        { success := true, result := some ⟨msgs⟩ }).2 = .ok () ∧
    List.countP isProcessedStep
      (handleQueueResponse cfg (selfEnv r)
        { success := true, result := some ⟨msgs⟩ }).1 = msgs.length ∧
    ackRequestsOf
      (handleQueueResponse cfg (selfEnv r)
        { success := true, result := some ⟨msgs⟩ }).1 =
      msgs.map (fun m => ([m], ([] : List RetryEntry))) ∧
    List.countP isRespProcessedStep
      (handleQueueResponse cfg (selfEnv r)
        { success := true, result := some ⟨msgs⟩ }).1 = 1 := by
  obtain ⟨h1, h2, h3, h4⟩ := processAll_self cfg r hr msgs
  have hhas : hasMessages { success := true, result := some ⟨msgs⟩ } = true := by
    simpa [hasMessages, List.length_pos] using hm
  rcases hp : processAll cfg (selfEnv r) msgs with ⟨steps, res⟩
  rw [hp] at h1 h2 h3 h4
  have hres : res = Except.ok () := h1
  subst hres
  have hEq : handleQueueResponse cfg (selfEnv r)
      { success := true, result := some ⟨msgs⟩ } =
      (steps ++ [.emit .response_processed], .ok ()) := by
    simp [handleQueueResponse, hhas, hb, hp]
  rw [hEq]
  refine ⟨rfl, ?_, ?_, ?_⟩
  · simp only [List.countP_append, List.countP_cons, List.countP_nil,
      isProcessedStep] at h2 ⊢
    simp [h2]
  · simp only [ackRequestsOf, List.filterMap_append, List.filterMap_cons,
      List.filterMap_nil] at h3 ⊢
    simp [h3]
  · simp only [List.countP_append, List.countP_cons, List.countP_nil,
      isRespProcessedStep] at h4 ⊢
    simp [h4]

/-- C1 witness: one message, handler resolving with it. -/
theorem c1_amended_witness :
    defaultConfig.hasBatchHandler = false ∧ ([msgA] ≠ []) ∧
    ackOkResp.success = true ∧
    List.countP isProcessedStep
      (handleQueueResponse defaultConfig (selfEnv ackOkResp)
        { success := true, result := some ⟨[msgA]⟩ }).1 = [msgA].length ∧
    ackRequestsOf
      (handleQueueResponse defaultConfig (selfEnv ackOkResp)
        { success := true, result := some ⟨[msgA]⟩ }).1 =
      [msgA].map (fun m => ([m], ([] : List RetryEntry))) :=
  ⟨rfl, by decide, rfl,
    (c1_amended defaultConfig ackOkResp [msgA] rfl (by decide) rfl).2.1,
    (c1_amended defaultConfig ackOkResp [msgA] rfl (by decide) rfl).2.2.1⟩

/-- The cycle environment of the end-to-end test: the pull returns `msgA`
(lease token `"lease-id"`), the handler resolves `null` (a successful
resolution), and the ack endpoint reports success. -/
def c7Env : MsgEnv :=
  { outcome := fun _ => .resolve .nullv
    netAck := fun _ => .ok ackOkResp
    netRetry := fun _ => .ok ackOkResp
    batchOutcome := .resolve .undef
    batchNetAck := .ok ackOkResp
    batchNetRetry := .ok ackOkResp }

/-- The step trace of the end-to-end single-message cycle. -/
def c7Steps : List Step :=
  (handleQueueResponse defaultConfig c7Env
    { success := true, result := some ⟨[msgA]⟩ }).1

/-- The ordering asserted by the claim: indices in strictly increasing
order carrying `message_received`, then `message_processed`, then the
acknowledge call, then `response_processed`. -/
def claimedC7Order (steps : List Step) (m : Message) : Prop :=
  ∃ i j k l : Fin steps.length, i < j ∧ j < k ∧ k < l ∧
    steps.get i = .emit (.message_received m) ∧
    steps.get j = .emit (.message_processed m) ∧
    isAckRequestStep (steps.get k) = true ∧
    steps.get l = .emit .response_processed

/-- C7: the claim puts `message_processed` before the acknowledge call.  In
the code the acknowledge call happens inside `processMessage` before
`message_processed` is emitted, so no such ordering exists in the trace. -/
theorem c7_counterexample : ¬ claimedC7Order c7Steps msgA := by
  unfold claimedC7Order
  decide

/-- C7 (amended): in the end-to-end scenario the trace is exactly: one
`message_received`, the acknowledge call (preceded by its
`acknowledging_messages` emission and followed by `acknowledged_messages`)
whose ack set is the one message with lease token `"lease-id"` and whose
retry set is empty, then one `message_processed`, then one
`response_processed` — the acknowledge call precedes `message_processed`. -/
theorem c7_amended :
    c7Steps =
      [.emit (.message_received msgA),
       .emit (.acknowledging_messages [msgA] []),
       .ackRequest [msgA] [],
       .emit (.acknowledged_messages ackOkResp.result),
       .emit (.message_processed msgA),
       .emit .response_processed] ∧
    [msgA].map Message.lease_id = ["lease-id"] ∧
    List.countP isReceivedStep c7Steps = 1 ∧
    List.countP isProcessedStep c7Steps = 1 ∧
    List.countP isAckRequestStep c7Steps = 1 ∧
    List.countP isRespProcessedStep c7Steps = 1 :=
  ⟨rfl, rfl, rfl, rfl, rfl, rfl⟩

/-- C4: the claim says a void batch-handler result acknowledges the batch
only when `alwaysAcknowledge` is set.  As stated it fails: with
`alwaysAcknowledge` unset and the batch handler resolving `undefined`,
`executeBatchHandler` falls back to the full input batch, which is
acknowledged and reported processed. -/
theorem c4_counterexample :
    defaultConfig.alwaysAcknowledge = false ∧
    processMessageBatch defaultConfig [msgA] (.resolve .undef)
        (.ok ackOkResp) (.ok ackOkResp) =
      ([.emit (.message_received msgA),
        .emit (.acknowledging_messages [msgA] []),
        .ackRequest [msgA] [],
        .emit (.acknowledged_messages ackOkResp.result),
        .emit (.message_processed msgA)], .ok ()) := by
  exact ⟨rfl, rfl⟩

/-- C4 (amended): with `alwaysAcknowledge` unset, a batch handler resolving
a non-empty list acknowledges exactly that list (with `message_processed`
for each of its members and nothing for the rest), and an empty list
acknowledges nothing; if `alwaysAcknowledge` is set or the handler resolves
a non-object (void) result, the entire input batch is acknowledged. -/
theorem c4_amended :
    (∀ (cfg : ConsumerConfig) (msgs L : List Message)
       (r : AckMessageResponse)
       (netRetry : Except ThrownValue AckMessageResponse),
      cfg.alwaysAcknowledge = false → L ≠ [] → r.success = true →
      processMessageBatch cfg msgs (.resolve (.arr L)) (.ok r) netRetry =
        (msgs.map (fun m => .emit (.message_received m)) ++
         ([.emit (.acknowledging_messages L []), .ackRequest L [],
           .emit (.acknowledged_messages r.result)] ++
          L.map (fun m => .emit (.message_processed m))), .ok ())) ∧
    (∀ (cfg : ConsumerConfig) (msgs : List Message)
       (nA nR : Except ThrownValue AckMessageResponse),
      cfg.alwaysAcknowledge = false →
      processMessageBatch cfg msgs (.resolve (.arr [])) nA nR =
        (msgs.map (fun m => .emit (.message_received m)), .ok ())) ∧
    (∀ (cfg : ConsumerConfig) (msgs : List Message) (v : JSValue)
       (r : AckMessageResponse)
       (netRetry : Except ThrownValue AckMessageResponse),
      (cfg.alwaysAcknowledge = true ∨ jsIsObject v = false) → msgs ≠ [] →
      r.success = true →
      processMessageBatch cfg msgs (.resolve v) (.ok r) netRetry =
        (msgs.map (fun m => .emit (.message_received m)) ++
         ([.emit (.acknowledging_messages msgs []), .ackRequest msgs [],
           .emit (.acknowledged_messages r.result)] ++
          msgs.map (fun m => .emit (.message_processed m))), .ok ())) := by
  refine ⟨?_, ?_, ?_⟩
  · intro cfg msgs L r netRetry haa hL hr
    simp [processMessageBatch, executeBatchHandler, acknowledgeMessage, haa,
      hr, jsIsObject, jsLenPositive, jsLenProp, jsAsMsgList,
      List.length_pos, hL]
  · intro cfg msgs nA nR haa
    simp [processMessageBatch, executeBatchHandler, haa, jsIsObject,
      jsLenPositive, jsLenProp]
  · intro cfg msgs v r netRetry hc hm hr
    rcases hc with h | h <;>
      simp [processMessageBatch, executeBatchHandler, acknowledgeMessage, h,
        hr, jsLenPositive, jsLenProp, jsAsMsgList, List.length_pos, hm]

/-- C4 witness: a two-message batch whose handler returns only the first
message — exactly that message is acknowledged and processed. -/
theorem c4_amended_witness :
    defaultConfig.alwaysAcknowledge = false ∧ ([msgA] ≠ []) ∧
    ackOkResp.success = true ∧
    processMessageBatch defaultConfig [msgA, msgB] (.resolve (.arr [msgA]))
        (.ok ackOkResp) (.ok ackOkResp) =
      ([msgA, msgB].map (fun m => .emit (.message_received m)) ++
       ([.emit (.acknowledging_messages [msgA] []), .ackRequest [msgA] [],
         .emit (.acknowledged_messages ackOkResp.result)] ++
        [msgA].map (fun m => .emit (.message_processed m))), .ok ()) :=
  ⟨rfl, by decide, rfl,
    c4_amended.1 defaultConfig [msgA, msgB] [msgA] ackOkResp (.ok ackOkResp)
      rfl (by decide) rfl⟩

/-- C5: the claim says even thrown `null` is carried safely into a
`processing_error` event.  It is not: `emitError` reads `err.name` without a
guard, so a thrown `null` makes the classification itself throw a
`TypeError` — the pipeline emits no `processing_error` and the message's
processing rejects with the `TypeError` (which the polling loop then
surfaces as a generic `error`). -/
theorem c5_counterexample :
    processMessage defaultConfig msgA (.reject .nullVal) (.ok ackOkResp)
        (.ok ackOkResp) =
      ([.emit (.message_received msgA)],
       .error (.errObj (.genericErr "TypeError"
         "Cannot read properties of null (reading name)"))) := by
  rfl

/-- C5 (amended): without message context every failure is a generic
`error`; with message context, a failure on which the `name` read succeeds
is classified in priority order — name `"ProviderError"` gives `error` with
the message, a `TimeoutError` instance gives `timeout_error`, and anything
else (thrown strings included) gives `processing_error` with the thrown
value carried in the payload, as the end-to-end trace for a thrown string
shows; thrown `null`/`undefined` instead make the classification throw. -/
theorem c5_amended :
    (∀ err : ThrownValue, emitError err none = .ok (.errorNoMsg err)) ∧
    (∀ (err : ThrownValue) (m : Message) (nm : Option String),
      jsNameProp err = .ok nm →
      emitError err (some m) = .ok (
        if nm = some "ProviderError" then .errorWithMsg err m
        else if isTimeoutInstance err = true then .timeout_error err m
        else .processing_error err m)) ∧
    (∀ (cfg : ConsumerConfig) (m : Message) (s : String)
       (nA nR : Except ThrownValue AckMessageResponse),
      cfg.retryMessagesOnError = false →
      processMessage cfg m (.reject (.strVal s)) nA nR =
        ([.emit (.message_received m),
          .emit (.processing_error (.strVal s) m)], .ok ())) := by
  refine ⟨?_, ?_, ?_⟩
  · intro err
    simp [emitError]
  · intro err m nm h
    simp [emitError, h, apply_ite Except.ok]
  · intro cfg m s nA nR hre
    simp [processMessage, executeHandler, emitError, isTimeoutInstance,
      jsNameProp, hre]

/-- C5 witness: a thrown string is classified as `processing_error` and its
value reaches the payload. -/
theorem c5_amended_witness :
    jsNameProp (.strVal "boom") = .ok none ∧
    emitError (.strVal "boom") (some msgA) = .ok (
      if (none : Option String) = some "ProviderError" then
        .errorWithMsg (.strVal "boom") msgA
      else if isTimeoutInstance (.strVal "boom") = true then
        .timeout_error (.strVal "boom") msgA
      else .processing_error (.strVal "boom") msgA) ∧
    defaultConfig.retryMessagesOnError = false ∧
    processMessage defaultConfig msgA (.reject (.strVal "boom"))
        (.ok ackOkResp) (.ok ackOkResp) =
      ([.emit (.message_received msgA),
        .emit (.processing_error (.strVal "boom") msgA)], .ok ()) :=
  ⟨rfl, c5_amended.2.1 (.strVal "boom") msgA none rfl, rfl,
    c5_amended.2.2 defaultConfig msgA "boom" (.ok ackOkResp) (.ok ackOkResp)
      rfl⟩

/-- C10: the catch block of `receiveMessage` never fires — the client's
promise is returned without being awaited inside the `try`, and calling an
async function cannot throw synchronously — so the polling loop's `error`
event carries the queues client's own rejection, never a `ProviderError`
wrapped as `Receive message failed: ...`. -/
theorem c10_rejection_passthrough :
    (∀ p : Except ThrownValue PullMessagesResponse,
      receiveMessage (queuesClientCall p) = p) ∧
    (∀ (cfg : ConsumerConfig) (env : MsgEnv) (err : ThrownValue),
      pollCycle cfg env (.error err) = [.emit (.errorNoMsg err)]) := by
  refine ⟨fun p => rfl, ?_⟩
  intro cfg env err
  simp [pollCycle, receiveMessage, queuesClientCall]
